import Mathlib

/-!
Verification of the machine-hash hardware-fingerprint core
(`src/hardware_info.rs`): the attribute collector `HardwareInfo::collect`
and the fingerprint deriver `HardwareInfo::generate_unique_code`,
shallow-embedded over `List Nat` byte streams, together with the MD5
digest the deriver uses.
-/

set_option maxRecDepth 100000

namespace MachineHash

/-! ## Byte-level modelling of Rust strings

Rust hashes `str::as_bytes()`, the UTF-8 encoding of a string.  We model a
string's byte stream by UTF-8-encoding each of its characters. -/

/-- UTF-8 encoding of a single character, as a list of byte values. -/
def utf8Bytes (c : Char) : List Nat :=
  let n := c.toNat
  if n < 0x80 then [n]
  else if n < 0x800 then [0xC0 ||| (n >>> 6), 0x80 ||| (n &&& 0x3F)]
  else if n < 0x10000 then
    [0xE0 ||| (n >>> 12), 0x80 ||| ((n >>> 6) &&& 0x3F), 0x80 ||| (n &&& 0x3F)]
  else
    [0xF0 ||| (n >>> 18), 0x80 ||| ((n >>> 12) &&& 0x3F),
     0x80 ||| ((n >>> 6) &&& 0x3F), 0x80 ||| (n &&& 0x3F)]

/-- The UTF-8 byte stream of a string (Rust `s.as_bytes()`). -/
def strBytes (s : String) : List Nat := s.data.flatMap utf8Bytes

/-! ## MD5 (the 128-bit digest used by the deriver, crate `md5 = Md5`)

Standard RFC 1321 MD5 over byte lists; 32-bit words are `Nat`s reduced
modulo `2^32` at each operation that can overflow. -/

/-- The 64 per-round additive constants of MD5 (RFC 1321). -/
def md5K : List Nat :=
  [0xd76aa478, 0xe8c7b756, 0x242070db, 0xc1bdceee,
   0xf57c0faf, 0x4787c62a, 0xa8304613, 0xfd469501,
   0x698098d8, 0x8b44f7af, 0xffff5bb1, 0x895cd7be,
   0x6b901122, 0xfd987193, 0xa679438e, 0x49b40821,
   0xf61e2562, 0xc040b340, 0x265e5a51, 0xe9b6c7aa,
   0xd62f105d, 0x02441453, 0xd8a1e681, 0xe7d3fbc8,
   0x21e1cde6, 0xc33707d6, 0xf4d50d87, 0x455a14ed,
   0xa9e3e905, 0xfcefa3f8, 0x676f02d9, 0x8d2a4c8a,
   0xfffa3942, 0x8771f681, 0x6d9d6122, 0xfde5380c,
   0xa4beea44, 0x4bdecfa9, 0xf6bb4b60, 0xbebfbc70,
   0x289b7ec6, 0xeaa127fa, 0xd4ef3085, 0x04881d05,
   0xd9d4d039, 0xe6db99e5, 0x1fa27cf8, 0xc4ac5665,
   0xf4292244, 0x432aff97, 0xab9423a7, 0xfc93a039,
   0x655b59c3, 0x8f0ccc92, 0xffeff47d, 0x85845dd1,
   0x6fa87e4f, 0xfe2ce6e0, 0xa3014314, 0x4e0811a1,
   0xf7537e82, 0xbd3af235, 0x2ad7d2bb, 0xeb86d391]

/-- The 64 per-round left-rotation amounts of MD5 (RFC 1321). -/
def md5S : List Nat :=
  [7, 12, 17, 22, 7, 12, 17, 22, 7, 12, 17, 22, 7, 12, 17, 22,
   5, 9, 14, 20, 5, 9, 14, 20, 5, 9, 14, 20, 5, 9, 14, 20,
   4, 11, 16, 23, 4, 11, 16, 23, 4, 11, 16, 23, 4, 11, 16, 23,
   6, 10, 15, 21, 6, 10, 15, 21, 6, 10, 15, 21, 6, 10, 15, 21]

/-- 32-bit left rotation on `Nat` words. -/
def rotl32 (x c : Nat) : Nat := ((x <<< c) ||| (x >>> (32 - c))) % 4294967296

/-- Read the `i`-th little-endian 32-bit word of a byte list. -/
def leWord (bytes : List Nat) (i : Nat) : Nat :=
  bytes.getD (4 * i) 0 + 256 * bytes.getD (4 * i + 1) 0 +
    65536 * bytes.getD (4 * i + 2) 0 + 16777216 * bytes.getD (4 * i + 3) 0

/-- The sixteen 32-bit message words of a 64-byte chunk. -/
def toWords (chunk : List Nat) : List Nat := (List.range 16).map (leWord chunk)

/-- One MD5 round: state `(A, B, C, D)`, round index `i`, message words `M`. -/
def md5Round (M : List Nat) (st : Nat × Nat × Nat × Nat) (i : Nat) :
    Nat × Nat × Nat × Nat :=
  let A := st.1
  let B := st.2.1
  let C := st.2.2.1
  let D := st.2.2.2
  let F :=
    if i < 16 then (B &&& C) ||| ((B ^^^ 0xFFFFFFFF) &&& D)
    else if i < 32 then (D &&& B) ||| ((D ^^^ 0xFFFFFFFF) &&& C)
    else if i < 48 then B ^^^ C ^^^ D
    else C ^^^ (B ||| (D ^^^ 0xFFFFFFFF))
  let g :=
    if i < 16 then i
    else if i < 32 then (5 * i + 1) % 16
    else if i < 48 then (3 * i + 5) % 16
    else (7 * i) % 16
  let F2 := (F + A + md5K.getD i 0 + M.getD g 0) % 4294967296
  (D, (B + rotl32 F2 (md5S.getD i 0)) % 4294967296, B, C)

/-- Process one 64-byte chunk: run the 64 rounds, add into the state. -/
def md5Chunk (st : Nat × Nat × Nat × Nat) (chunk : List Nat) :
    Nat × Nat × Nat × Nat :=
  let M := toWords chunk
  let r := (List.range 64).foldl (md5Round M) st
  ((st.1 + r.1) % 4294967296, (st.2.1 + r.2.1) % 4294967296,
   (st.2.2.1 + r.2.2.1) % 4294967296, (st.2.2.2 + r.2.2.2) % 4294967296)

/-- Process the padded message 64 bytes at a time.  The first argument is
fuel bounding the number of iterations; calling with fuel equal to the
(padded) message length always suffices, since every iteration consumes a
non-empty prefix of the list. -/
def md5Loop : Nat → Nat × Nat × Nat × Nat → List Nat → Nat × Nat × Nat × Nat
  | 0, st, _ => st
  | _, st, [] => st
  | fuel + 1, st, l => md5Loop fuel (md5Chunk st (l.take 64)) (l.drop 64)

/-- The `count` least-significant bytes of `n`, little-endian. -/
def leBytes (n count : Nat) : List Nat :=
  (List.range count).map (fun i => (n >>> (8 * i)) % 256)

/-- MD5 padding: append `0x80`, zero-fill to 56 mod 64, then the 64-bit
little-endian bit length. -/
def md5Pad (msg : List Nat) : List Nat :=
  msg ++ 0x80 :: List.replicate ((119 - msg.length % 64) % 64) 0 ++
    leBytes (msg.length * 8) 8

/-- MD5 initial state. -/
def md5Init : Nat × Nat × Nat × Nat := (0x67452301, 0xefcdab89, 0x98badcfe, 0x10325476)

/-- Serialize one 32-bit state word as four little-endian bytes. -/
def wordLEBytes (w : Nat) : List Nat :=
  [w % 256, w / 256 % 256, w / 65536 % 256, w / 16777216 % 256]

/-- MD5 digest of a byte list: sixteen bytes. -/
def md5 (msg : List Nat) : List Nat :=
  let padded := md5Pad msg
  let st := md5Loop padded.length md5Init padded
  wordLEBytes st.1 ++ wordLEBytes st.2.1 ++ wordLEBytes st.2.2.1 ++ wordLEBytes st.2.2.2

/-- Lowercase hexadecimal digit for a value below 16. -/
def hexDigit (n : Nat) : Char := if n < 10 then Char.ofNat (48 + n) else Char.ofNat (87 + n)

/-- Lowercase hex encoding of a byte list (Rust `hex::encode`), as the
character list of the resulting string. -/
def hexEncode (bytes : List Nat) : List Char :=
  bytes.flatMap fun b => [hexDigit (b / 16), hexDigit (b % 16)]

/-! ## Data model (`NetworkInfo`, `HardwareInfo`, lines 6-32) -/

/-- One retained network interface (struct `NetworkInfo`, lines 6-12). -/
structure NetworkInfo where
  name : String
  mac_address : String
  is_up : Bool
  interface_type : String
deriving DecidableEq

/-- The hardware snapshot (struct `HardwareInfo`, lines 14-32), field for
field in source order. -/
structure HardwareInfo where
  cpu_info : String
  motherboard_serial : String
  disk_serial : String
  mac_address : String
  os_info : String
  memory_serial : String
  bios_version : String
  cpu_physical_id : String
  disk_model : String
  disk_firmware : String
  motherboard_uuid : String
  motherboard_manufacturer : String
  motherboard_product_name : String
  bios_vendor : String
  bios_release_date : String
  network_interfaces : List NetworkInfo
deriving DecidableEq

/-! ## Fingerprint deriver (`generate_unique_code`, lines 98-131) -/

/-- The error value returned when a critical field is missing
(line 100; the spec names it `DerivationError::MissingCriticalData`). -/
def MissingCriticalData : String := "Critical hardware information missing"

/-- The exact byte stream fed to the hasher by `generate_unique_code`
(lines 103-120): motherboard serial, motherboard UUID, the MAC bytes of
every interface in the list that is up with a non-empty MAC, the
separator byte `0xFF`, and the UTF-8 bytes of
the string formed as cpu_physical_id, a colon, motherboard_product_name,
a colon, disk_model. -/
def hashInput (self : HardwareInfo) : List Nat :=
  strBytes self.motherboard_serial ++
  strBytes self.motherboard_uuid ++
  (self.network_interfaces.flatMap fun i =>
    if i.is_up && !(i.mac_address == "") then strBytes i.mac_address else []) ++
  0xFF ::
  strBytes (self.cpu_physical_id ++ ":" ++ self.motherboard_product_name ++ ":" ++
    self.disk_model)

/-- The output formatting of lines 122-130: lowercase hex of the digest,
then the character slices `[0..4]`, `[4..8]`, `[8..12]`, `[12..16]`
joined with a dash. -/
def fingerprintFormat (digest : List Nat) : String :=
  let hash := hexEncode digest
  String.mk ((hash.take 4) ++ '-' :: ((hash.drop 4).take 4) ++
    '-' :: ((hash.drop 8).take 4) ++ '-' :: ((hash.drop 12).take 4))

/-- `HardwareInfo::generate_unique_code` (lines 98-131): gate on the two
critical fields, then MD5 the byte stream of `hashInput` and format. -/
def generate_unique_code (self : HardwareInfo) : Except String String :=
  if self.motherboard_serial == "" || self.motherboard_uuid == "" then
    Except.error MissingCriticalData
  else
    Except.ok (fingerprintFormat (md5 (hashInput self)))

/-! ## Attribute collector (`collect`, lines 35-79) -/

/-- `HardwareInfo::is_primary_interface` (lines 81-86). -/
def is_primary_interface (name : String) : Bool :=
  name == "en0" || name == "eth0" || name == "enp0s1"

/-- Model of Rust `str::starts_with` on strings. -/
def strStartsWith (s p : String) : Bool := s.data.take p.data.length == p.data

/-- `HardwareInfo::detect_interface_type` (lines 88-96). -/
def detect_interface_type (name : String) : String :=
  if strStartsWith name "en" || strStartsWith name "eth" then "Ethernet"
  else if strStartsWith name "wl" || strStartsWith name "wifi" then "Wi-Fi"
  else "Unknown"

/-- Stable insertion of an interface into a list sorted by MAC address:
the new element goes before the first element not below it. -/
def insertByMac (x : NetworkInfo) : List NetworkInfo → List NetworkInfo
  | [] => [x]
  | y :: ys =>
    if y.mac_address < x.mac_address then y :: insertByMac x ys else x :: y :: ys

/-- Stable sort by MAC address string ordering, modelling
`sort_by(|a, b| a.mac_address.cmp(&b.mac_address))` (line 58); Rust's
`sort_by` is a stable sort, and all stable sorts of a list under the same
total preorder agree. -/
def sortByMac : List NetworkInfo → List NetworkInfo
  | [] => []
  | x :: xs => insertByMac x (sortByMac xs)

/-- The filtering loop of `collect` (lines 39-52), as a function of the
OS-enumerated `(name, mac)` pairs in enumeration order: keep allow-listed
names with a non-empty, non-all-zero MAC, marking each survivor up and
classifying its type. -/
def filteredInterfaces (networks : List (String × String)) : List NetworkInfo :=
  networks.filterMap fun p =>
    if is_primary_interface p.1 then
      if !(p.2 == "") && !(p.2 == "00:00:00:00:00:00") then
        some { name := p.1, mac_address := p.2, is_up := true,
               interface_type := detect_interface_type p.1 }
      else none
    else none

/-- The truncation (lines 54-56) and sort (line 58) applied to the
filtered interfaces, completing the network-interface processing of
`collect`. -/
def collectInterfaces (networks : List (String × String)) : List NetworkInfo :=
  let filtered := filteredInterfaces networks
  let truncated := if filtered.length > 1 then filtered.take 1 else filtered
  sortByMac truncated

/-- The results of the fourteen fallible attribute probes invoked by
`collect` (lines 61-76), one field per probe, in source field order.  The
error type is abstract, mirroring `Box<dyn Error>`. -/
structure ProbeResults (ε : Type) where
  cpu_info : Except ε String
  motherboard_serial : Except ε String
  disk_serial : Except ε String
  mac_address : Except ε String
  memory_serial : Except ε String
  bios_version : Except ε String
  cpu_physical_id : Except ε String
  disk_model : Except ε String
  disk_firmware : Except ε String
  motherboard_uuid : Except ε String
  motherboard_manufacturer : Except ε String
  motherboard_product_name : Except ε String
  bios_vendor : Except ε String
  bios_release_date : Except ε String

/-- `HardwareInfo::collect` (lines 35-79): process the enumerated network
interfaces, then evaluate every probe with `?`-propagation in the struct
literal's field order; `os_info` is built infallibly from the two
optional OS strings (lines 65-66). -/
def collect {ε : Type} (pr : ProbeResults ε) (osName osVersion : Option String)
    (networks : List (String × String)) : Except ε HardwareInfo :=
  let network_interfaces := collectInterfaces networks
  pr.cpu_info.bind fun cpu_info =>
  pr.motherboard_serial.bind fun motherboard_serial =>
  pr.disk_serial.bind fun disk_serial =>
  pr.mac_address.bind fun mac_address =>
  let os_info := osName.getD "" ++ " " ++ osVersion.getD ""
  pr.memory_serial.bind fun memory_serial =>
  pr.bios_version.bind fun bios_version =>
  pr.cpu_physical_id.bind fun cpu_physical_id =>
  pr.disk_model.bind fun disk_model =>
  pr.disk_firmware.bind fun disk_firmware =>
  pr.motherboard_uuid.bind fun motherboard_uuid =>
  pr.motherboard_manufacturer.bind fun motherboard_manufacturer =>
  pr.motherboard_product_name.bind fun motherboard_product_name =>
  pr.bios_vendor.bind fun bios_vendor =>
  pr.bios_release_date.bind fun bios_release_date =>
  Except.ok
    { cpu_info, motherboard_serial, disk_serial, mac_address, os_info,
      memory_serial, bios_version, cpu_physical_id, disk_model, disk_firmware,
      motherboard_uuid, motherboard_manufacturer, motherboard_product_name,
      bios_vendor, bios_release_date, network_interfaces }

/-- The error of the first failing probe, checked in the order `collect`
evaluates the probes, if any probe failed. -/
def firstError {ε : Type} (pr : ProbeResults ε) : Option ε :=
  match pr.cpu_info with
  | Except.error e => some e
  | Except.ok _ =>
  match pr.motherboard_serial with
  | Except.error e => some e
  | Except.ok _ =>
  match pr.disk_serial with
  | Except.error e => some e
  | Except.ok _ =>
  match pr.mac_address with
  | Except.error e => some e
  | Except.ok _ =>
  match pr.memory_serial with
  | Except.error e => some e
  | Except.ok _ =>
  match pr.bios_version with
  | Except.error e => some e
  | Except.ok _ =>
  match pr.cpu_physical_id with
  | Except.error e => some e
  | Except.ok _ =>
  match pr.disk_model with
  | Except.error e => some e
  | Except.ok _ =>
  match pr.disk_firmware with
  | Except.error e => some e
  | Except.ok _ =>
  match pr.motherboard_uuid with
  | Except.error e => some e
  | Except.ok _ =>
  match pr.motherboard_manufacturer with
  | Except.error e => some e
  | Except.ok _ =>
  match pr.motherboard_product_name with
  | Except.error e => some e
  | Except.ok _ =>
  match pr.bios_vendor with
  | Except.error e => some e
  | Except.ok _ =>
  match pr.bios_release_date with
  | Except.error e => some e
  | Except.ok _ => none

/-! ## Spec-side definitions

These follow the wording of the specification (sections 4.2 and 8), to be
compared against the definitions embedded from the source. -/

/-- Decidable equality on `Except`, needed to evaluate results. -/
instance {ε α : Type} [DecidableEq ε] [DecidableEq α] : DecidableEq (Except ε α) := fun a b =>
  match a, b with
  | Except.ok x, Except.ok y =>
    if h : x = y then Decidable.isTrue (by rw [h])
    else Decidable.isFalse (fun hc => h (Except.ok.inj hc))
  | Except.error x, Except.error y =>
    if h : x = y then Decidable.isTrue (by rw [h])
    else Decidable.isFalse (fun hc => h (Except.error.inj hc))
  | Except.ok _, Except.error _ => Decidable.isFalse (fun hc => Except.noConfusion hc)
  | Except.error _, Except.ok _ => Decidable.isFalse (fun hc => Except.noConfusion hc)

/-- Modelled from the spec (section 4.2, hash step 3): the MAC contribution
of "the retained network interface only (if present and marked up and MAC
non-empty)" — the data model allows at most one retained interface. -/
def specMacBytes (s : HardwareInfo) : List Nat :=
  match s.network_interfaces with
  | [i] => if i.is_up = true ∧ i.mac_address ≠ "" then strBytes i.mac_address else []
  | _ => []

/-- Modelled from the spec (section 4.2): the documented hash input —
motherboard serial bytes, motherboard UUID bytes, the retained
interface's MAC bytes when applicable, the separator byte `0xFF`, and the
UTF-8 bytes of the colon-joined cpu_physical_id, motherboard_product_name
and disk_model. -/
def specHashInput (s : HardwareInfo) : List Nat :=
  strBytes s.motherboard_serial ++
  strBytes s.motherboard_uuid ++
  specMacBytes s ++
  0xFF ::
  strBytes (s.cpu_physical_id ++ ":" ++ s.motherboard_product_name ++ ":" ++ s.disk_model)

/-- A character in the class `[0-9a-f]`. -/
def isLowerHexDigit (c : Char) : Bool :=
  (('0' ≤ c) && (c ≤ '9')) || (('a' ≤ c) && (c ≤ 'f'))

/-- The spec's format invariant (section 8): the string matches
the pattern of four 4-character lowercase-hex groups joined by dashes. -/
def matchesFingerprintPattern (s : String) : Bool :=
  match s.data with
  | [a, b, c, d, h1, e, f, g, h, h2, i, j, k, l, h3, m, n, o, p] =>
    ([a, b, c, d, e, f, g, h, i, j, k, l, m, n, o, p].all isLowerHexDigit) &&
      (h1 == '-') && (h2 == '-') && (h3 == '-')
  | _ => false

/-! ## Concrete inputs used by witnesses and counterexamples -/

/-- A retained interface as in the spec's end-to-end scenario (section 8). -/
def exNI : NetworkInfo :=
  { name := "en0", mac_address := "aa:bb:cc:dd:ee:ff", is_up := true,
    interface_type := "Ethernet" }

/-- The spec's end-to-end example snapshot (section 8), remaining fields
empty. -/
def exS : HardwareInfo :=
  { cpu_info := "", motherboard_serial := "SN123", disk_serial := "",
    mac_address := "", os_info := "", memory_serial := "", bios_version := "",
    cpu_physical_id := "0", disk_model := "DM1", disk_firmware := "",
    motherboard_uuid := "UUID-ABC", motherboard_manufacturer := "",
    motherboard_product_name := "PB1", bios_vendor := "", bios_release_date := "",
    network_interfaces := [exNI] }

/-- `exS` with motherboard serial and UUID exchanged. -/
def exSwap : HardwareInfo :=
  { exS with motherboard_serial := "UUID-ABC", motherboard_uuid := "SN123" }

/-- A snapshot whose serial and UUID concatenate to the same byte stream
in either order: serial `"A"`, UUID `"AA"`. -/
def c6a : HardwareInfo :=
  { exS with
    motherboard_serial := "A", motherboard_uuid := "AA",
    network_interfaces := [] }

/-- `c6a` with motherboard serial and UUID exchanged. -/
def c6b : HardwareInfo :=
  { exS with
    motherboard_serial := "AA", motherboard_uuid := "A",
    network_interfaces := [] }

/-- `exS` with an empty motherboard serial. -/
def c3ex : HardwareInfo := { exS with motherboard_serial := "" }

/-- `exS` with an empty motherboard UUID. -/
def c3ex2 : HardwareInfo := { exS with motherboard_uuid := "" }

/-- `exS` with every non-hashed field changed. -/
def exSVar : HardwareInfo :=
  { exS with
    cpu_info := "i9", disk_serial := "DS9", mac_address := "11:22:33:44:55:66",
    os_info := "linux 6", memory_serial := "MS7", bios_version := "v2",
    disk_firmware := "fw3", motherboard_manufacturer := "ACME",
    bios_vendor := "AMI", bios_release_date := "2020-01-01" }

/-- The three synthetic interfaces of the spec's narrowing scenario,
enumerated with `en0` first. -/
def c1OrderA : List (String × String) :=
  [("en0", "aa:aa:aa:aa:aa:aa"), ("eth0", "bb:bb:bb:bb:bb:bb"),
   ("wlan0", "cc:cc:cc:cc:cc:cc")]

/-- The same three synthetic interfaces, enumerated with `eth0` first. -/
def c1OrderB : List (String × String) :=
  [("eth0", "bb:bb:bb:bb:bb:bb"), ("en0", "aa:aa:aa:aa:aa:aa"),
   ("wlan0", "cc:cc:cc:cc:cc:cc")]

/-! ## Helper lemmas -/

/-- With at most one retained interface, the loop over the interface list
contributes exactly the spec's MAC bytes, so the hashed byte stream is the
documented one. -/
theorem hashInput_eq_spec (s : HardwareInfo) (hn : s.network_interfaces.length ≤ 1) :
    hashInput s = specHashInput s := by
  unfold hashInput specHashInput specMacBytes
  rcases hni : s.network_interfaces with _ | ⟨i, rest⟩
  · simp
  · rcases rest with _ | ⟨j, rest2⟩
    · simp only [List.flatMap_cons, List.flatMap_nil, List.append_nil]
      by_cases hup : i.is_up = true <;> by_cases hmac : i.mac_address = "" <;>
        simp [hup, hmac]
    · rw [hni] at hn
      simp at hn

/-! ## Claims about the fingerprint deriver -/

/-- C2. Hash recipe: for every snapshot passing the critical-field check
(with its at-most-one retained interface), `generate_unique_code` computes
the 128-bit MD5 digest over exactly the documented byte sequence —
motherboard serial bytes, motherboard UUID bytes, the retained
interface's MAC bytes when it is up with a non-empty MAC, the separator
byte `0xFF`, and the UTF-8 bytes of the colon-joined secondary string —
and formats that digest. -/
theorem hash_recipe (s : HardwareInfo) (h1 : s.motherboard_serial ≠ "")
    (h2 : s.motherboard_uuid ≠ "") (hn : s.network_interfaces.length ≤ 1) :
    generate_unique_code s = Except.ok (fingerprintFormat (md5 (specHashInput s))) := by
  have hb : (s.motherboard_serial == "" || s.motherboard_uuid == "") = false := by
    simp [h1, h2]
  unfold generate_unique_code
  rw [hb, hashInput_eq_spec s hn]
  rfl

/-- Witness for C2 at the spec's end-to-end example snapshot. -/
theorem hash_recipe_witness :
    exS.motherboard_serial ≠ "" ∧ exS.motherboard_uuid ≠ "" ∧
    exS.network_interfaces.length ≤ 1 ∧
    generate_unique_code exS = Except.ok (fingerprintFormat (md5 (specHashInput exS))) :=
  ⟨by decide, by decide, by decide, hash_recipe exS (by decide) (by decide) (by decide)⟩

/-- C3. Critical-field gate: a snapshot with an empty motherboard serial or
an empty motherboard UUID makes `generate_unique_code` fail with the
missing-critical-data error, producing no fingerprint. -/
theorem critical_field_gate (s : HardwareInfo)
    (h : s.motherboard_serial = "" ∨ s.motherboard_uuid = "") :
    generate_unique_code s = Except.error MissingCriticalData := by
  unfold generate_unique_code
  rcases h with h | h <;> simp [h]

/-- Witness for C3: empty serial with every other field populated, and
likewise empty UUID. -/
theorem critical_field_gate_witness :
    (c3ex.motherboard_serial = "" ∨ c3ex.motherboard_uuid = "") ∧
    generate_unique_code c3ex = Except.error MissingCriticalData ∧
    generate_unique_code c3ex2 = Except.error MissingCriticalData :=
  ⟨Or.inl rfl, critical_field_gate c3ex (Or.inl rfl),
   critical_field_gate c3ex2 (Or.inr rfl)⟩

/-- C5. Determinism: `generate_unique_code` is a pure function of the
snapshot — two invocations on the same snapshot give the same result. -/
theorem derive_deterministic (s : HardwareInfo) :
    generate_unique_code s = generate_unique_code s := rfl

/-- C6 counterexample: a snapshot passing the critical-field check on which
exchanging motherboard serial and UUID provably does not change the
fingerprint, because serial `"A"` and UUID `"AA"` concatenate to the same
byte stream in either order. -/
theorem order_sensitivity_cex :
    c6a.motherboard_serial ≠ "" ∧ c6a.motherboard_uuid ≠ "" ∧
    c6b.motherboard_serial = c6a.motherboard_uuid ∧
    c6b.motherboard_uuid = c6a.motherboard_serial ∧
    generate_unique_code c6a = generate_unique_code c6b := by
  refine ⟨by decide, by decide, by decide, by decide, ?_⟩
  rfl

/-- C6 amended: exchanging motherboard serial and UUID changes the
fingerprint whenever it changes the hashed byte stream, as on the spec's
example snapshot (serial `"SN123"`, UUID `"UUID-ABC"`). -/
theorem order_sensitivity_amended :
    exSwap.motherboard_serial = exS.motherboard_uuid ∧
    exSwap.motherboard_uuid = exS.motherboard_serial ∧
    hashInput exS ≠ hashInput exSwap ∧
    generate_unique_code exS ≠ generate_unique_code exSwap := by
  exact ⟨by decide, by decide, by decide, by decide⟩

/-- C9. Noninterference: the fingerprint depends only on motherboard
serial, motherboard UUID, the retained interface list, cpu_physical_id,
motherboard_product_name and disk_model — snapshots agreeing on those six
give identical results. -/
theorem derive_noninterference (s₁ s₂ : HardwareInfo)
    (h1 : s₁.motherboard_serial = s₂.motherboard_serial)
    (h2 : s₁.motherboard_uuid = s₂.motherboard_uuid)
    (h3 : s₁.network_interfaces = s₂.network_interfaces)
    (h4 : s₁.cpu_physical_id = s₂.cpu_physical_id)
    (h5 : s₁.motherboard_product_name = s₂.motherboard_product_name)
    (h6 : s₁.disk_model = s₂.disk_model) :
    generate_unique_code s₁ = generate_unique_code s₂ := by
  unfold generate_unique_code hashInput
  rw [h1, h2, h3, h4, h5, h6]

/-- Witness for C9: `exSVar` differs from `exS` in all ten non-hashed
fields, yet the fingerprint is unchanged. -/
theorem derive_noninterference_witness :
    generate_unique_code exS = generate_unique_code exSVar :=
  derive_noninterference exS exSVar rfl rfl rfl rfl rfl rfl

/-- C10. Totality on valid input: `generate_unique_code` succeeds exactly
when both critical fields are non-empty, and the missing-critical-data
error is its only failure mode. -/
theorem derive_total (s : HardwareInfo) :
    ((∃ c, generate_unique_code s = Except.ok c) ↔
      s.motherboard_serial ≠ "" ∧ s.motherboard_uuid ≠ "") ∧
    ∀ e, generate_unique_code s = Except.error e → e = MissingCriticalData := by
  unfold generate_unique_code
  cases hb : (s.motherboard_serial == "" || s.motherboard_uuid == "")
  · simp only [Bool.or_eq_false_iff, beq_eq_false_iff_ne, ne_eq] at hb
    constructor
    · simp [hb.1, hb.2]
    · intro e he
      simp at he
  · simp only [Bool.or_eq_true, beq_iff_eq] at hb
    constructor
    · constructor
      · rintro ⟨c, hc⟩
        simp at hc
      · rintro ⟨hs, hu⟩
        rcases hb with hb | hb
        · exact absurd hb hs
        · exact absurd hb hu
    · intro e he
      simp only [if_true, Except.error.injEq] at he
      exact he.symm

/-- Witness for C10: the example snapshot succeeds, and a snapshot with an
empty serial fails with exactly the missing-critical-data error. -/
theorem derive_total_witness :
    (∃ c, generate_unique_code exS = Except.ok c) ∧
    MissingCriticalData = MissingCriticalData :=
  ⟨(derive_total exS).1.mpr ⟨by decide, by decide⟩,
   ((derive_total c3ex).2 MissingCriticalData (by rfl)).symm ▸ rfl⟩

/-! ## Claims about the attribute collector -/

/-- C1 evaluation: the survivors of the allow-list filter are truncated to
the first element in OS enumeration order before the sort runs, so with
the same three synthetic interfaces the retained MAC depends on the
enumeration order — `aa:aa:aa:aa:aa:aa` when `en0` is enumerated first,
but `bb:bb:bb:bb:bb:bb` when `eth0` is enumerated first, contradicting
the claimed sort-then-truncate selection of the smallest MAC. -/
theorem interface_truncation_before_sort :
    collectInterfaces c1OrderA =
      [{ name := "en0", mac_address := "aa:aa:aa:aa:aa:aa", is_up := true,
         interface_type := "Ethernet" }] ∧
    collectInterfaces c1OrderB =
      [{ name := "eth0", mac_address := "bb:bb:bb:bb:bb:bb", is_up := true,
         interface_type := "Ethernet" }] :=
  ⟨rfl, rfl⟩

/-- C4. Fail-fast collection: when any attribute probe fails, `collect`
returns the error of the first failing probe in evaluation order, so no
snapshot — in particular no partially populated snapshot — is ever
returned. -/
theorem collect_fail_fast {ε : Type} (pr : ProbeResults ε)
    (osName osVersion : Option String) (networks : List (String × String))
    (e : ε) (h : firstError pr = some e) :
    collect pr osName osVersion networks = Except.error e := by
  unfold collect
  unfold firstError at h
  rcases h01 : pr.cpu_info with e1 | v1
  · simp only [h01, Option.some.injEq] at h
    subst h
    simp only [h01, Except.bind]
  · simp only [h01] at h
    simp only [h01, Except.bind]
    rcases h02 : pr.motherboard_serial with e2 | v2
    · simp only [h02, Option.some.injEq] at h
      subst h
      simp only [h02, Except.bind]
    · simp only [h02] at h
      simp only [h02, Except.bind]
      rcases h03 : pr.disk_serial with e3 | v3
      · simp only [h03, Option.some.injEq] at h
        subst h
        simp only [h03, Except.bind]
      · simp only [h03] at h
        simp only [h03, Except.bind]
        rcases h04 : pr.mac_address with e4 | v4
        · simp only [h04, Option.some.injEq] at h
          subst h
          simp only [h04, Except.bind]
        · simp only [h04] at h
          simp only [h04, Except.bind]
          rcases h05 : pr.memory_serial with e5 | v5
          · simp only [h05, Option.some.injEq] at h
            subst h
            simp only [h05, Except.bind]
          · simp only [h05] at h
            simp only [h05, Except.bind]
            rcases h06 : pr.bios_version with e6 | v6
            · simp only [h06, Option.some.injEq] at h
              subst h
              simp only [h06, Except.bind]
            · simp only [h06] at h
              simp only [h06, Except.bind]
              rcases h07 : pr.cpu_physical_id with e7 | v7
              · simp only [h07, Option.some.injEq] at h
                subst h
                simp only [h07, Except.bind]
              · simp only [h07] at h
                simp only [h07, Except.bind]
                rcases h08 : pr.disk_model with e8 | v8
                · simp only [h08, Option.some.injEq] at h
                  subst h
                  simp only [h08, Except.bind]
                · simp only [h08] at h
                  simp only [h08, Except.bind]
                  rcases h09 : pr.disk_firmware with e9 | v9
                  · simp only [h09, Option.some.injEq] at h
                    subst h
                    simp only [h09, Except.bind]
                  · simp only [h09] at h
                    simp only [h09, Except.bind]
                    rcases h10 : pr.motherboard_uuid with e10 | v10
                    · simp only [h10, Option.some.injEq] at h
                      subst h
                      simp only [h10, Except.bind]
                    · simp only [h10] at h
                      simp only [h10, Except.bind]
                      rcases h11 : pr.motherboard_manufacturer with e11 | v11
                      · simp only [h11, Option.some.injEq] at h
                        subst h
                        simp only [h11, Except.bind]
                      · simp only [h11] at h
                        simp only [h11, Except.bind]
                        rcases h12 : pr.motherboard_product_name with e12 | v12
                        · simp only [h12, Option.some.injEq] at h
                          subst h
                          simp only [h12, Except.bind]
                        · simp only [h12] at h
                          simp only [h12, Except.bind]
                          rcases h13 : pr.bios_vendor with e13 | v13
                          · simp only [h13, Option.some.injEq] at h
                            subst h
                            simp only [h13, Except.bind]
                          · simp only [h13] at h
                            simp only [h13, Except.bind]
                            rcases h14 : pr.bios_release_date with e14 | v14
                            · simp only [h14, Option.some.injEq] at h
                              subst h
                              simp only [h14, Except.bind]
                            · simp only [h14] at h
                              simp only [h14, Except.bind]
                              exact Option.noConfusion h

/-- Successful collection returns exactly the processed interface list in
the snapshot. -/
theorem collect_ok_interfaces {ε : Type} (pr : ProbeResults ε)
    (osName osVersion : Option String) (networks : List (String × String))
    (s : HardwareInfo) (h : collect pr osName osVersion networks = Except.ok s) :
    s.network_interfaces = collectInterfaces networks := by
  unfold collect at h
  rcases h01 : pr.cpu_info with e1 | v1
  · simp only [h01, Except.bind] at h
    exact Except.noConfusion h
  · simp only [h01, Except.bind] at h
    rcases h02 : pr.motherboard_serial with e2 | v2
    · simp only [h02, Except.bind] at h
      exact Except.noConfusion h
    · simp only [h02, Except.bind] at h
      rcases h03 : pr.disk_serial with e3 | v3
      · simp only [h03, Except.bind] at h
        exact Except.noConfusion h
      · simp only [h03, Except.bind] at h
        rcases h04 : pr.mac_address with e4 | v4
        · simp only [h04, Except.bind] at h
          exact Except.noConfusion h
        · simp only [h04, Except.bind] at h
          rcases h05 : pr.memory_serial with e5 | v5
          · simp only [h05, Except.bind] at h
            exact Except.noConfusion h
          · simp only [h05, Except.bind] at h
            rcases h06 : pr.bios_version with e6 | v6
            · simp only [h06, Except.bind] at h
              exact Except.noConfusion h
            · simp only [h06, Except.bind] at h
              rcases h07 : pr.cpu_physical_id with e7 | v7
              · simp only [h07, Except.bind] at h
                exact Except.noConfusion h
              · simp only [h07, Except.bind] at h
                rcases h08 : pr.disk_model with e8 | v8
                · simp only [h08, Except.bind] at h
                  exact Except.noConfusion h
                · simp only [h08, Except.bind] at h
                  rcases h09 : pr.disk_firmware with e9 | v9
                  · simp only [h09, Except.bind] at h
                    exact Except.noConfusion h
                  · simp only [h09, Except.bind] at h
                    rcases h10 : pr.motherboard_uuid with e10 | v10
                    · simp only [h10, Except.bind] at h
                      exact Except.noConfusion h
                    · simp only [h10, Except.bind] at h
                      rcases h11 : pr.motherboard_manufacturer with e11 | v11
                      · simp only [h11, Except.bind] at h
                        exact Except.noConfusion h
                      · simp only [h11, Except.bind] at h
                        rcases h12 : pr.motherboard_product_name with e12 | v12
                        · simp only [h12, Except.bind] at h
                          exact Except.noConfusion h
                        · simp only [h12, Except.bind] at h
                          rcases h13 : pr.bios_vendor with e13 | v13
                          · simp only [h13, Except.bind] at h
                            exact Except.noConfusion h
                          · simp only [h13, Except.bind] at h
                            rcases h14 : pr.bios_release_date with e14 | v14
                            · simp only [h14, Except.bind] at h
                              exact Except.noConfusion h
                            · simp only [h14, Except.bind] at h
                              rw [← Except.ok.inj h]


/-- Membership in a stable insertion. -/
theorem mem_insertByMac {i x : NetworkInfo} {l : List NetworkInfo} :
    i ∈ insertByMac x l ↔ i = x ∨ i ∈ l := by
  induction l with
  | nil => simp [insertByMac]
  | cons y ys ih =>
    unfold insertByMac
    by_cases hc : y.mac_address < x.mac_address
    · simp only [if_pos hc, List.mem_cons, ih]
      tauto
    · simp only [if_neg hc, List.mem_cons]

/-- Sorting by MAC neither adds nor removes interfaces. -/
theorem mem_sortByMac {i : NetworkInfo} {l : List NetworkInfo} :
    i ∈ sortByMac l ↔ i ∈ l := by
  induction l with
  | nil => simp [sortByMac]
  | cons x xs ih => simp [sortByMac, mem_insertByMac, ih]

/-- Every interface surviving the filter has a non-empty, non-all-zero
MAC. -/
theorem mem_filteredInterfaces {i : NetworkInfo} {networks : List (String × String)}
    (h : i ∈ filteredInterfaces networks) :
    i.mac_address ≠ "" ∧ i.mac_address ≠ "00:00:00:00:00:00" := by
  unfold filteredInterfaces at h
  rcases List.mem_filterMap.mp h with ⟨p, hp, heq⟩
  split_ifs at heq with hprim hmac
  · have hrec := Option.some.inj heq
    subst hrec
    simp only [Bool.and_eq_true, Bool.not_eq_true', beq_eq_false_iff_ne, ne_eq] at hmac
    exact ⟨hmac.1, hmac.2⟩

/-- C8. All-zero MAC exclusion: whatever interfaces the OS exposes, no
interface in a successfully collected snapshot's list has an empty or
all-zero MAC address. -/
theorem allzero_mac_excluded {ε : Type} (pr : ProbeResults ε)
    (osName osVersion : Option String) (networks : List (String × String))
    (s : HardwareInfo) (i : NetworkInfo)
    (hok : collect pr osName osVersion networks = Except.ok s)
    (hmem : i ∈ s.network_interfaces) :
    i.mac_address ≠ "" ∧ i.mac_address ≠ "00:00:00:00:00:00" := by
  rw [collect_ok_interfaces pr osName osVersion networks s hok] at hmem
  simp only [collectInterfaces] at hmem
  rw [mem_sortByMac] at hmem
  have h2 : i ∈ filteredInterfaces networks := by
    by_cases hc : (filteredInterfaces networks).length > 1
    · rw [if_pos hc] at hmem
      exact List.take_subset _ _ hmem
    · rw [if_neg hc] at hmem
      exact hmem
  exact mem_filteredInterfaces h2

/-- A hex digit rendered by `hexDigit` from a value below 16 is in the
class `[0-9a-f]`. -/
theorem isHex_hexDigit (n : Nat) (h : n < 16) : isLowerHexDigit (hexDigit n) = true := by
  interval_cases n <;> decide

/-- Both hex digits of a byte below 256 are in the class `[0-9a-f]`. -/
theorem hex2_ok (b : Nat) (h : b < 256) :
    isLowerHexDigit (hexDigit (b / 16)) = true ∧
    isLowerHexDigit (hexDigit (b % 16)) = true :=
  ⟨isHex_hexDigit _ (by omega), isHex_hexDigit _ (by omega)⟩

/-- Each serialized state byte is below 256. -/
theorem wordLE_byte_lt (w : Nat) : ∀ b ∈ wordLEBytes w, b < 256 := by
  intro b hb
  simp only [wordLEBytes, List.mem_cons, List.not_mem_nil, or_false] at hb
  rcases hb with h | h | h | h <;> subst h <;> exact Nat.mod_lt _ (by norm_num)

/-- Every MD5 output byte is below 256. -/
theorem md5_byte_lt (msg : List Nat) : ∀ b ∈ md5 msg, b < 256 := by
  intro b hb
  simp only [md5, List.mem_append] at hb
  rcases hb with ((h | h) | h) | h <;> exact wordLE_byte_lt _ b h

/-- The MD5 digest is sixteen bytes long. -/
theorem md5_length (msg : List Nat) : (md5 msg).length = 16 := by
  simp [md5, wordLEBytes]

/-- Formatting any 16-byte digest yields a string matching the
four-groups-of-four lowercase-hex pattern. -/
theorem fingerprintFormat_matches (l : List Nat) (hlen : l.length = 16)
    (hlt : ∀ b ∈ l, b < 256) :
    matchesFingerprintPattern (fingerprintFormat l) = true := by
  rcases l with _ | ⟨b0, l⟩
  · simp at hlen
  rcases l with _ | ⟨b1, l⟩
  · simp at hlen
  rcases l with _ | ⟨b2, l⟩
  · simp at hlen
  rcases l with _ | ⟨b3, l⟩
  · simp at hlen
  rcases l with _ | ⟨b4, l⟩
  · simp at hlen
  rcases l with _ | ⟨b5, l⟩
  · simp at hlen
  rcases l with _ | ⟨b6, l⟩
  · simp at hlen
  rcases l with _ | ⟨b7, l⟩
  · simp at hlen
  rcases l with _ | ⟨b8, l⟩
  · simp at hlen
  rcases l with _ | ⟨b9, l⟩
  · simp at hlen
  rcases l with _ | ⟨b10, l⟩
  · simp at hlen
  rcases l with _ | ⟨b11, l⟩
  · simp at hlen
  rcases l with _ | ⟨b12, l⟩
  · simp at hlen
  rcases l with _ | ⟨b13, l⟩
  · simp at hlen
  rcases l with _ | ⟨b14, l⟩
  · simp at hlen
  rcases l with _ | ⟨b15, l⟩
  · simp at hlen
  rcases l with _ | ⟨b16, l⟩
  case cons => simp at hlen
  have h0 : b0 < 256 := hlt b0 (by simp)
  have h1 : b1 < 256 := hlt b1 (by simp)
  have h2 : b2 < 256 := hlt b2 (by simp)
  have h3 : b3 < 256 := hlt b3 (by simp)
  have h4 : b4 < 256 := hlt b4 (by simp)
  have h5 : b5 < 256 := hlt b5 (by simp)
  have h6 : b6 < 256 := hlt b6 (by simp)
  have h7 : b7 < 256 := hlt b7 (by simp)
  obtain ⟨q0a, q0b⟩ := hex2_ok b0 h0
  obtain ⟨q1a, q1b⟩ := hex2_ok b1 h1
  obtain ⟨q2a, q2b⟩ := hex2_ok b2 h2
  obtain ⟨q3a, q3b⟩ := hex2_ok b3 h3
  obtain ⟨q4a, q4b⟩ := hex2_ok b4 h4
  obtain ⟨q5a, q5b⟩ := hex2_ok b5 h5
  obtain ⟨q6a, q6b⟩ := hex2_ok b6 h6
  obtain ⟨q7a, q7b⟩ := hex2_ok b7 h7
  have hred : matchesFingerprintPattern (fingerprintFormat
      [b0, b1, b2, b3, b4, b5, b6, b7, b8, b9, b10, b11, b12, b13, b14, b15]) =
      (((([hexDigit (b0 / 16),
          hexDigit (b0 % 16),
          hexDigit (b1 / 16),
          hexDigit (b1 % 16),
          hexDigit (b2 / 16),
          hexDigit (b2 % 16),
          hexDigit (b3 / 16),
          hexDigit (b3 % 16),
          hexDigit (b4 / 16),
          hexDigit (b4 % 16),
          hexDigit (b5 / 16),
          hexDigit (b5 % 16),
          hexDigit (b6 / 16),
          hexDigit (b6 % 16),
          hexDigit (b7 / 16),
          hexDigit (b7 % 16)].all isLowerHexDigit) && true) && true) && true) := rfl
  rw [hred]
  simp [q0a, q0b, q1a, q1b, q2a, q2b, q3a, q3b, q4a, q4b, q5a, q5b, q6a, q6b, q7a, q7b]


/-- C7. Format invariant: every successful result of the deriver matches
the pattern of four 4-character lowercase-hex groups joined by dashes,
the first 16 hex digits of the 128-bit digest. -/
theorem fingerprint_format (s : HardwareInfo) (c : String)
    (h : generate_unique_code s = Except.ok c) :
    matchesFingerprintPattern c = true := by
  unfold generate_unique_code at h
  split at h
  · exact Except.noConfusion h
  · rw [← Except.ok.inj h]
    exact fingerprintFormat_matches _ (md5_length _) (md5_byte_lt _)

/-- Witness for C7 at the example snapshot. -/
theorem fingerprint_format_witness :
    matchesFingerprintPattern "03df-8cea-815d-851d" = true :=
  fingerprint_format exS "03df-8cea-815d-851d" (by rfl)

/-- Probe results where every probe succeeds. -/
def prOk : ProbeResults String :=
  { cpu_info := Except.ok "cpu", motherboard_serial := Except.ok "SN123",
    disk_serial := Except.ok "ds", mac_address := Except.ok "mac",
    memory_serial := Except.ok "ms", bios_version := Except.ok "bv",
    cpu_physical_id := Except.ok "0", disk_model := Except.ok "DM1",
    disk_firmware := Except.ok "fw", motherboard_uuid := Except.ok "UUID-ABC",
    motherboard_manufacturer := Except.ok "mm",
    motherboard_product_name := Except.ok "PB1",
    bios_vendor := Except.ok "bvnd", bios_release_date := Except.ok "brd" }

/-- Probe results where the disk-serial probe fails with an I/O error. -/
def prBad : ProbeResults String :=
  { prOk with disk_serial := Except.error "io failure" }

/-- Witness for C4: with a failing disk-serial probe, collection returns
that probe's error and no snapshot. -/
theorem collect_fail_fast_witness :
    firstError prBad = some "io failure" ∧
    collect prBad none none [] = Except.error "io failure" :=
  ⟨rfl, collect_fail_fast prBad none none [] "io failure" rfl⟩

/-- An enumeration exposing an allow-listed interface with an all-zero MAC
alongside a valid one. -/
def netsC8 : List (String × String) :=
  [("en0", "00:00:00:00:00:00"), ("eth0", "bb:bb:bb:bb:bb:bb")]

/-- The interface retained from `netsC8`. -/
def niC8 : NetworkInfo :=
  { name := "eth0", mac_address := "bb:bb:bb:bb:bb:bb", is_up := true,
    interface_type := "Ethernet" }

/-- The snapshot collected from `prOk` and `netsC8`. -/
def sWit : HardwareInfo :=
  { cpu_info := "cpu", motherboard_serial := "SN123", disk_serial := "ds",
    mac_address := "mac", os_info := " ", memory_serial := "ms",
    bios_version := "bv", cpu_physical_id := "0", disk_model := "DM1",
    disk_firmware := "fw", motherboard_uuid := "UUID-ABC",
    motherboard_manufacturer := "mm", motherboard_product_name := "PB1",
    bios_vendor := "bvnd", bios_release_date := "brd",
    network_interfaces := [niC8] }

/-- Witness for C8 on a concrete enumeration containing an allow-listed
all-zero-MAC interface. -/
theorem allzero_mac_excluded_witness :
    niC8.mac_address ≠ "" ∧ niC8.mac_address ≠ "00:00:00:00:00:00" :=
  allzero_mac_excluded prOk none none netsC8 sWit niC8 (by rfl) (by decide)

end MachineHash
